import Mathlib

/-! Verification of the battle engine in `src/backend/pokemon_battle.py`.

The Python source is shallowly embedded: every class attribute becomes a
structure field, every method a Lean function.  Python floats are modelled as
exact rationals (the float literals appearing in the source, such as 1.5, 0.5,
1.3, are treated as the rationals they denote), Python `int(x)` as truncation
toward zero, Python `//` as `Int.fdiv` (floor division), and every call to the
`random` module as a field of an explicit oracle structure passed to the
function, so all behaviour is quantified over the drawn values.  Division by
zero follows Lean's convention `q / 0 = 0`; no claim exercises a zero divisor.
-/

set_option allowUnsafeReducibility true in
attribute [semireducible] Rat.mul Rat.inv Rat.add Rat.sub

namespace PBat

/-- Floor of a rational, computed directly from numerator and denominator so
that kernel reduction works. -/
def ratFloor (q : ℚ) : ℤ := q.num / (q.den : ℤ)

/-- Python `int(q)` on a rational: truncation toward zero. -/
def pyInt (q : ℚ) : ℤ := if q < 0 then -ratFloor (-q) else ratFloor q

/-- Whether `pat` is an initial segment of `s` (character lists). -/
def charsStart : List Char → List Char → Bool
  | [], _ => true
  | _ :: _, [] => false
  | a :: as, b :: bs => a == b && charsStart as bs

/-- Whether `pat` occurs as a contiguous substring of the character list. -/
def charsContain (pat : List Char) : List Char → Bool
  | [] => charsStart pat []
  | c :: rest => charsStart pat (c :: rest) || charsContain pat rest

/-- Python `pat in hay` on strings: contiguous substring test. -/
def strContains (hay pat : String) : Bool := charsContain pat.data hay.data

/-- ASCII lower-casing of one character, as Python `str.lower` does on ASCII. -/
def lowerChar (c : Char) : Char :=
  if 'A' ≤ c ∧ c ≤ 'Z' then Char.ofNat (c.toNat + 32) else c

/-- ASCII lower-casing of a string. -/
def lowerStr (s : String) : String := String.mk (s.data.map lowerChar)

/-- Python `stat_name.replace('-', '_')`: the pattern is the single character
`-`, so the replacement is a character map. -/
def replaceDashUnderscore (s : String) : String :=
  String.mk (s.data.map (fun c => if c = '-' then '_' else c))

/-- The six calculated stats dictionary built in `Pokemon._calculate_stats`. -/
structure Stats where
  hp : ℕ
  attack : ℕ
  defense : ℕ
  specialAttack : ℕ
  specialDefense : ℕ
  speed : ℕ
deriving DecidableEq, Repr

/-- Python `self.stats.get(stat_name, 0)`. -/
def statsGet (s : Stats) (key : String) : ℕ :=
  if key = "hp" then s.hp
  else if key = "attack" then s.attack
  else if key = "defense" then s.defense
  else if key = "special-attack" then s.specialAttack
  else if key = "special-defense" then s.specialDefense
  else if key = "speed" then s.speed
  else 0

/-- The `stat_modifiers` dictionary of a `Pokemon` (seven stage counters). -/
structure StatMods where
  attack : ℤ
  defense : ℤ
  specialAttack : ℤ
  specialDefense : ℤ
  speed : ℤ
  accuracy : ℤ
  evasion : ℤ
deriving DecidableEq, Repr

/-- The all-zero stage dictionary a `Pokemon` is constructed with. -/
def zeroMods : StatMods := ⟨0, 0, 0, 0, 0, 0, 0⟩

/-- Python `self.stat_modifiers.get(stat_name, 0)`. -/
def modsGet (m : StatMods) (key : String) : ℤ :=
  if key = "attack" then m.attack
  else if key = "defense" then m.defense
  else if key = "special-attack" then m.specialAttack
  else if key = "special-defense" then m.specialDefense
  else if key = "speed" then m.speed
  else if key = "accuracy" then m.accuracy
  else if key = "evasion" then m.evasion
  else 0

/-- Python `target.stat_modifiers[stat] = v` for the seven known keys. -/
def modsSet (m : StatMods) (key : String) (v : ℤ) : StatMods :=
  if key = "attack" then { m with attack := v }
  else if key = "defense" then { m with defense := v }
  else if key = "special-attack" then { m with specialAttack := v }
  else if key = "special-defense" then { m with specialDefense := v }
  else if key = "speed" then { m with speed := v }
  else if key = "accuracy" then { m with accuracy := v }
  else if key = "evasion" then { m with evasion := v }
  else m

/-- One static move record as cached in `Pokemon.move_data`.  Optional fields
model dictionary keys that may be absent or `None`; defaults are applied at
each use site exactly as the corresponding `.get(key, default)` does. -/
structure MoveData where
  power : Option ℕ
  accuracy : Option ℕ
  mtype : String
  damageClass : String
  priority : Option ℤ
  effectChance : Option ℕ
  critRate : Option ℕ
  effectText : String
deriving DecidableEq, Repr

/-- The fallback record `Pokemon._load_move_data` installs when the remote
fetch produced no data (source lines 108-116): a generic normal-type physical
move with power 60 and accuracy 90. -/
def defaultMoveRecord : MoveData :=
  { power := some 60
    accuracy := some 90
    mtype := "normal"
    damageClass := "physical"
    priority := none
    effectChance := none
    critRate := none
    effectText := "Deals damage with no additional effects." }

/-- The pure core of `Pokemon._load_move_data` for one move: the cache entry
is the fetched record when the fetch succeeded and the default record
otherwise. -/
def loadMoveEntry (fetched : Option MoveData) : MoveData :=
  match fetched with
  | some d => d
  | none => defaultMoveRecord

/-- The sixteen held items whose effects `Pokemon._load_item_data` knows. -/
inductive Item
  | leftovers | blackSludge | choiceBand | choiceSpecs | choiceScarf
  | lifeOrb | focusSash | assaultVest | eviolite | flameOrb | toxicOrb
  | quickClaw | muscleBand | wiseGlasses | expertBelt | focusBand
deriving DecidableEq, Repr

/-- A value stored in an item-effect dictionary: a string or a number. -/
inductive IVal
  | s (v : String)
  | q (v : ℚ)
deriving DecidableEq, Repr

/-- The `item_effects` table of `Pokemon._load_item_data` (lines 142-159),
one association list per item, mirroring the Python dictionaries. -/
def itemEffects : Item → List (String × IVal)
  | .leftovers => [("type", .s "heal"), ("value", .q (1/16))]
  | .blackSludge => [("type", .s "conditional_heal"), ("value", .q (1/16))]
  | .choiceBand => [("type", .s "stat_boost"), ("stat", .s "attack"), ("multiplier", .q (3/2))]
  | .choiceSpecs => [("type", .s "stat_boost"), ("stat", .s "special-attack"), ("multiplier", .q (3/2))]
  | .choiceScarf => [("type", .s "stat_boost"), ("stat", .s "speed"), ("multiplier", .q (3/2))]
  | .lifeOrb => [("type", .s "damage_boost"), ("multiplier", .q (13/10)), ("recoil", .q (1/10))]
  | .focusSash => [("type", .s "survival"), ("effect", .s "endure")]
  | .assaultVest => [("type", .s "stat_boost"), ("stat", .s "special-defense"), ("multiplier", .q (3/2))]
  | .eviolite => [("type", .s "evolution_boost"), ("defense", .q (3/2)), ("special-defense", .q (3/2))]
  | .flameOrb => [("type", .s "self_status"), ("status", .s "burn")]
  | .toxicOrb => [("type", .s "self_status"), ("status", .s "poison")]
  | .quickClaw => [("type", .s "priority_chance"), ("chance", .q (1/5))]
  | .muscleBand => [("type", .s "type_boost"), ("damage_class", .s "physical"), ("multiplier", .q (11/10))]
  | .wiseGlasses => [("type", .s "type_boost"), ("damage_class", .s "special"), ("multiplier", .q (11/10))]
  | .expertBelt => [("type", .s "effectiveness_boost"), ("multiplier", .q (6/5))]
  | .focusBand => [("type", .s "survival_chance"), ("chance", .q (1/10))]

/-- Python `d.get(key)` on an item-effect dictionary. -/
def dGet (d : List (String × IVal)) (key : String) : Option IVal := d.lookup key

/-- Python `d.get(key)` when a string is expected (`None` otherwise). -/
def dGetS (d : List (String × IVal)) (key : String) : Option String :=
  match dGet d key with
  | some (.s v) => some v
  | _ => none

/-- Python `d.get(key, default)` when a number is expected. -/
def dGetQ (d : List (String × IVal)) (key : String) (dflt : ℚ) : ℚ :=
  match dGet d key with
  | some (.q v) => v
  | _ => dflt

/-- One combatant: the mutable state of the Python `Pokemon` object that the
battle engine reads and writes.  `moveData` is the `move_data` cache,
`heldItem` determines `item_data` through `itemEffects` exactly as
`_load_item_data` does (`none` is the empty dictionary). -/
structure Pokemon where
  types : List String
  level : ℕ
  stats : Stats
  maxHp : ℕ
  currentHp : ℤ
  status : Option String
  statusTurns : ℤ
  statMods : StatMods
  critStage : ℕ
  flinch : Bool
  heldItem : Option Item
  moveData : List (String × MoveData)
deriving DecidableEq, Repr

/-- Python `self.item_data`: the effect dictionary of the held item, or the
empty dictionary when no item is held. -/
def itemData (p : Pokemon) : List (String × IVal) :=
  match p.heldItem with
  | some i => itemEffects i
  | none => []

/-- Python `self.current_hp = max(0, self.current_hp - dmg)`. -/
def hpLoss (p : Pokemon) (dmg : ℤ) : Pokemon :=
  { p with currentHp := max 0 (p.currentHp - dmg) }

/-- Python `self.current_hp = min(self.max_hp, self.current_hp + amt)`. -/
def hpGainCapped (p : Pokemon) (amt : ℤ) : Pokemon :=
  { p with currentHp := min (p.maxHp : ℤ) (p.currentHp + amt) }

/-- `Pokemon.get_effective_stat` (source lines 167-189): stage multiplier,
then matching held-item multiplier, with Python `int(...)` truncation applied
after each of the two multiplications, exactly as in the source. -/
def getEffectiveStat (p : Pokemon) (statName : String) : ℤ :=
  let baseStat : ℕ := statsGet p.stats statName
  let modifier : ℤ := modsGet p.statMods statName
  let multiplier : ℚ :=
    if modifier > 0 then (2 + (modifier : ℚ)) / 2
    else if modifier < 0 then 2 / (2 + |(modifier : ℚ)|)
    else 1
  let effectiveStat : ℤ := pyInt ((baseStat : ℚ) * multiplier)
  let d := itemData p
  if d ≠ [] then
    if dGetS d "type" = some "stat_boost" ∧ dGetS d "stat" = some statName then
      pyInt ((effectiveStat : ℚ) * dGetQ d "multiplier" 1)
    else if dGetS d "type" = some "evolution_boost" ∧
        (statName = "defense" ∨ statName = "special-defense") then
      pyInt ((effectiveStat : ℚ) * dGetQ d (replaceDashUnderscore statName) 1)
    else effectiveStat
  else effectiveStat

/-- Battle messages.  The engine's f-strings are abstracted into one
constructor per `messages.append` site, carrying the data the string
interpolates (display text itself is presentation, not engine state). -/
inductive Event
  | faintedCannotMove | flinchedNoMove | fastAsleep | thawedOut | frozenSolid
  | paralyzedCannotMove | isConfused
  | hurtItselfInConfusion (dmg : ℤ)
  | doesNotKnowMove (move : String)
  | usedMove (move : String)
  | blockedByPsychicTerrain
  | quickClawActivated
  | attackMissed
  | heldOnSurvival | heldOnFocusBand
  | takesDamage (dmg : ℤ)
  | superEffectiveMsg | notVeryEffectiveMsg | doesNotAffectMsg
  | criticalHit
  | statusInflicted (status : String)
  | statChanged (stat : String) (boost : ℤ)
  | weatherStarted (w : String)
  | terrainStarted (t : String)
  | flinchedTarget
  | gettingPumped
  | wentToSleepAndRestored
  | hitMultipleTimes (n : ℕ)
  | statusDamage (status : String) (dmg : ℤ)
  | itemHeal | blackSludgeHurt
  | wokeUp | thawedAtTurnEnd | snappedOutOfConfusion
  | buffetedBySandstorm | buffetedByHail
  | grassyTerrainHeal
  | weatherStopped (w : String)
  | terrainFaded (t : String)
deriving DecidableEq, Repr

/-- The message component returned by `BattleEngine.calculate_damage`. -/
inductive EffMsg
  | empty | superEffective | notVeryEffective | doesNotAffect
  | statusMoveUsed | moveDataNotFound
deriving DecidableEq, Repr

/-- The battlefield state owned by `BattleEngine` (weather and terrain with
their remaining-turn counters). -/
structure Field where
  weather : Option String
  weatherTurns : ℤ
  terrain : Option String
  terrainTurns : ℤ
deriving DecidableEq, Repr

/-- `BattleEngine.set_weather`. -/
def setWeather (f : Field) (w : String) (turns : ℤ) : Field :=
  { f with weather := some w, weatherTurns := turns }

/-- `BattleEngine.set_terrain`. -/
def setTerrain (f : Field) (t : String) (turns : ℤ) : Field :=
  { f with terrain := some t, terrainTurns := turns }

/-- The simplified type chart of `BattleEngine._load_type_effectiveness`
(source lines 299-321); a pair absent from the nested dictionaries yields
the default multiplier 1. -/
def typeChart (atk dfn : String) : ℚ :=
  if atk = "fire" then
    if dfn = "grass" ∨ dfn = "ice" ∨ dfn = "bug" ∨ dfn = "steel" then 2
    else if dfn = "water" ∨ dfn = "fire" ∨ dfn = "rock" ∨ dfn = "dragon" then 1/2
    else 1
  else if atk = "water" then
    if dfn = "fire" ∨ dfn = "ground" ∨ dfn = "rock" then 2
    else if dfn = "water" ∨ dfn = "grass" ∨ dfn = "dragon" then 1/2
    else 1
  else if atk = "grass" then
    if dfn = "water" ∨ dfn = "ground" ∨ dfn = "rock" then 2
    else if dfn = "fire" ∨ dfn = "grass" ∨ dfn = "poison" ∨ dfn = "flying" ∨
        dfn = "bug" ∨ dfn = "dragon" ∨ dfn = "steel" then 1/2
    else 1
  else if atk = "electric" then
    if dfn = "water" ∨ dfn = "flying" then 2
    else if dfn = "electric" ∨ dfn = "grass" ∨ dfn = "dragon" then 1/2
    else if dfn = "ground" then 0
    else 1
  else if atk = "psychic" then
    if dfn = "fighting" ∨ dfn = "poison" then 2
    else if dfn = "psychic" ∨ dfn = "steel" then 1/2
    else if dfn = "dark" then 0
    else 1
  else if atk = "ice" then
    if dfn = "grass" ∨ dfn = "ground" ∨ dfn = "flying" ∨ dfn = "dragon" then 2
    else if dfn = "fire" ∨ dfn = "water" ∨ dfn = "ice" ∨ dfn = "steel" then 1/2
    else 1
  else if atk = "dragon" then
    if dfn = "dragon" then 2
    else if dfn = "steel" then 1/2
    else if dfn = "fairy" then 0
    else 1
  else if atk = "dark" then
    if dfn = "psychic" ∨ dfn = "ghost" then 2
    else if dfn = "fighting" ∨ dfn = "dark" ∨ dfn = "fairy" then 1/2
    else 1
  else if atk = "fairy" then
    if dfn = "fighting" ∨ dfn = "dragon" ∨ dfn = "dark" then 2
    else if dfn = "fire" ∨ dfn = "poison" ∨ dfn = "steel" then 1/2
    else 1
  else if atk = "fighting" then
    if dfn = "normal" ∨ dfn = "ice" ∨ dfn = "rock" ∨ dfn = "dark" ∨ dfn = "steel" then 2
    else if dfn = "poison" ∨ dfn = "flying" ∨ dfn = "psychic" ∨ dfn = "bug" ∨
        dfn = "fairy" then 1/2
    else if dfn = "ghost" then 0
    else 1
  else if atk = "poison" then
    if dfn = "grass" ∨ dfn = "fairy" then 2
    else if dfn = "poison" ∨ dfn = "ground" ∨ dfn = "rock" ∨ dfn = "ghost" then 1/2
    else if dfn = "steel" then 0
    else 1
  else if atk = "ground" then
    if dfn = "fire" ∨ dfn = "electric" ∨ dfn = "poison" ∨ dfn = "rock" ∨ dfn = "steel" then 2
    else if dfn = "grass" ∨ dfn = "bug" then 1/2
    else if dfn = "flying" then 0
    else 1
  else if atk = "flying" then
    if dfn = "fighting" ∨ dfn = "bug" ∨ dfn = "grass" then 2
    else if dfn = "electric" ∨ dfn = "ice" ∨ dfn = "rock" ∨ dfn = "steel" then 1/2
    else 1
  else if atk = "bug" then
    if dfn = "grass" ∨ dfn = "psychic" ∨ dfn = "dark" then 2
    else if dfn = "fire" ∨ dfn = "fighting" ∨ dfn = "poison" ∨ dfn = "flying" ∨
        dfn = "ghost" ∨ dfn = "steel" ∨ dfn = "fairy" then 1/2
    else 1
  else if atk = "rock" then
    if dfn = "fire" ∨ dfn = "ice" ∨ dfn = "flying" ∨ dfn = "bug" then 2
    else if dfn = "fighting" ∨ dfn = "ground" ∨ dfn = "steel" then 1/2
    else 1
  else if atk = "ghost" then
    if dfn = "psychic" ∨ dfn = "ghost" then 2
    else if dfn = "dark" then 1/2
    else if dfn = "normal" then 0
    else 1
  else if atk = "steel" then
    if dfn = "ice" ∨ dfn = "rock" ∨ dfn = "fairy" then 2
    else if dfn = "fire" ∨ dfn = "water" ∨ dfn = "electric" ∨ dfn = "steel" then 1/2
    else 1
  else if atk = "normal" then
    if dfn = "ghost" then 0
    else if dfn = "rock" ∨ dfn = "steel" then 1/2
    else 1
  else 1

/-- `BattleEngine.calculate_type_effectiveness`: product of the chart entries
over the defender's types. -/
def calculateTypeEffectiveness (moveType : String) (defenderTypes : List String) : ℚ :=
  defenderTypes.foldl (fun acc t => acc * typeChart moveType t) 1

/-- `BattleEngine._get_weather_multiplier` (the two `Pokemon` parameters of
the source are unused there and omitted here). -/
def getWeatherMultiplier (f : Field) (moveType : String) : ℚ :=
  match f.weather with
  | none => 1
  | some w =>
    if w = "sun" then
      if moveType = "fire" then 3/2 else if moveType = "water" then 1/2 else 1
    else if w = "rain" then
      if moveType = "water" then 3/2 else if moveType = "fire" then 1/2 else 1
    else 1

/-- `BattleEngine._get_terrain_multiplier` (unused parameters omitted). -/
def getTerrainMultiplier (f : Field) (moveType : String) : ℚ :=
  match f.terrain with
  | none => 1
  | some t =>
    if t = "grassy" then if moveType = "grass" then 13/10 else 1
    else if t = "electric" then if moveType = "electric" then 13/10 else 1
    else if t = "psychic" then if moveType = "psychic" then 13/10 else 1
    else if t = "misty" then if moveType = "dragon" then 1/2 else 1
    else 1

/-- `BattleEngine._get_item_damage_multiplier` (the unused `defender` and
`move_type` parameters are omitted). -/
def getItemDamageMultiplier (attacker : Pokemon) (damageClass : String)
    (typeEffectiveness : ℚ) : ℚ :=
  let d := itemData attacker
  if d ≠ [] then
    if dGetS d "type" = some "damage_boost" then dGetQ d "multiplier" 1
    else if dGetS d "type" = some "type_boost" then
      if dGetS d "damage_class" = some damageClass then dGetQ d "multiplier" 1 else 1
    else if dGetS d "type" = some "effectiveness_boost" ∧ typeEffectiveness > 1 then
      dGetQ d "multiplier" 1
    else 1
  else 1

/-- `Pokemon.get_critical_hit_chance` (source lines 191-210). -/
def getCriticalHitChance (p : Pokemon) (moveName : String) : ℚ :=
  let moveCritStage : ℕ :=
    ((p.moveData.lookup moveName).bind (fun d => d.critRate)).getD 0
  let totalCritStage : ℕ := min 3 (p.critStage + moveCritStage)
  if lowerStr moveName = "frost-breath" ∨ lowerStr moveName = "storm-throw" then 1
  else if totalCritStage = 0 then 1/24
  else if totalCritStage = 1 then 1/8
  else if totalCritStage = 2 then 1/2
  else if totalCritStage = 3 then 1
  else 1/24

/-- `Pokemon.is_fainted`. -/
def isFainted (p : Pokemon) : Bool := p.currentHp ≤ 0

/-- The badly-poisoned end-of-turn damage computed at source line 236:
`max(1, (max_hp * status_turns) // 16)`. -/
def severePoisonDamage (maxHp : ℕ) (turns : ℤ) : ℤ :=
  max 1 (Int.fdiv ((maxHp : ℤ) * turns) 16)

/-- The status-condition damage block of `Pokemon.apply_status_damage`
(source lines 223-238). -/
def statusDamagePhase (p : Pokemon) : Pokemon × List Event :=
  if p.status = some "poison" then
    let damage : ℤ := max 1 (Int.fdiv (p.maxHp : ℤ) 8)
    (hpLoss p damage, [Event.statusDamage "poison" damage])
  else if p.status = some "burn" then
    let damage : ℤ := max 1 (Int.fdiv (p.maxHp : ℤ) 16)
    (hpLoss p damage, [Event.statusDamage "burn" damage])
  else if p.status = some "badly-poisoned" then
    let damage := severePoisonDamage p.maxHp p.statusTurns
    (hpLoss p damage, [Event.statusDamage "badly-poisoned" damage])
  else (p, [])

/-- The held-item end-of-turn block of `Pokemon.apply_status_damage`
(source lines 240-257). -/
def itemEndOfTurnPhase (p : Pokemon) : Pokemon × List Event :=
  if itemData p ≠ [] then
    if dGetS (itemData p) "type" = some "heal" then
      let healAmount := pyInt ((p.maxHp : ℚ) * dGetQ (itemData p) "value" 0)
      if p.currentHp < (p.maxHp : ℤ) ∧ p.currentHp > 0 then
        (hpGainCapped p healAmount, [Event.itemHeal])
      else (p, [])
    else if dGetS (itemData p) "type" = some "conditional_heal" then
      let healAmount := pyInt ((p.maxHp : ℚ) * dGetQ (itemData p) "value" 0)
      if "poison" ∈ p.types then
        if p.currentHp < (p.maxHp : ℤ) ∧ p.currentHp > 0 then
          (hpGainCapped p healAmount, [Event.itemHeal])
        else (p, [])
      else (hpLoss p healAmount, [Event.blackSludgeHurt])
    else (p, [])
  else (p, [])

/-- The timed-status countdown block of `Pokemon.apply_status_damage`
(source lines 259-270). -/
def statusCountdownPhase (p : Pokemon) : Pokemon × List Event :=
  if p.status = some "sleep" ∨ p.status = some "freeze" ∨ p.status = some "confusion" then
    let turns := p.statusTurns - 1
    if turns ≤ 0 then
      let wakeMsg :=
        if p.status = some "sleep" then [Event.wokeUp]
        else if p.status = some "freeze" then [Event.thawedAtTurnEnd]
        else [Event.snappedOutOfConfusion]
      ({ p with status := none, statusTurns := 0 }, wakeMsg)
    else ({ p with statusTurns := turns }, [])
  else (p, [])

/-- `Pokemon.apply_status_damage` (source lines 216-279): end-of-turn status
damage, held-item heal or damage, timed-status countdown, badly-poisoned
counter increment, and the flinch reset — including the early return that
skips everything when the combatant has no status and no item. -/
def applyStatusDamage (p : Pokemon) : Pokemon × List Event :=
  if p.status = none ∧ itemData p = [] then (p, [])
  else
    let (p, msgs) := statusDamagePhase p
    let (p, msgs2) := itemEndOfTurnPhase p
    let msgs := msgs ++ msgs2
    let (p, msgs3) := statusCountdownPhase p
    let msgs := msgs ++ msgs3
    let p :=
      if p.status = some "badly-poisoned" then { p with statusTurns := p.statusTurns + 1 }
      else p
    ({ p with flinch := false }, msgs)

/-- The empty dictionary `attacker.move_data.get(move_name, {})` falls back
to in `_apply_move_effects`: every key absent. -/
def defaultEmptyMove : MoveData :=
  { power := none, accuracy := none, mtype := "", damageClass := "",
    priority := none, effectChance := none, critRate := none, effectText := "" }

/-- The random draws one `use_move` call can consume, one field per call of
the `random` module in `use_move`, `calculate_damage` and
`_apply_move_effects`.  Uniform `[0,1)` draws are rationals; `accuracyRoll`
is `random.randint(1, 100)`; `statusTurnsDraw` is `random.randint(1, 4)`;
`multiHitIdx` indexes `random.choice([2, 2, 3, 3, 4, 5])`. -/
structure MoveOracle where
  thawRoll : ℚ
  paralysisRoll : ℚ
  confusionRoll : ℚ
  quickClawRoll : ℚ
  accuracyRoll : ℤ
  critRoll : ℚ
  randFactor : ℚ
  survivalRoll : ℚ
  statusRoll : String → ℚ
  statusTurnsDraw : ℤ
  flinchRoll : ℚ
  multiHitIdx : ℕ

/-- The attack/defense pair `calculate_damage` selects from the damage class
(source lines 352-372), with the critical-hit override: `none` when the class
is neither physical nor special. -/
def selectStats (attacker defender : Pokemon) (damageClass : String)
    (isCritical : Bool) : Option (ℤ × ℤ) :=
  if damageClass = "physical" then
    let attackStat := getEffectiveStat attacker "attack"
    let defenseStat := getEffectiveStat defender "defense"
    if isCritical then
      some (max attackStat (attacker.stats.attack : ℤ),
            min defenseStat (defender.stats.defense : ℤ))
    else some (attackStat, defenseStat)
  else if damageClass = "special" then
    let attackStat := getEffectiveStat attacker "special-attack"
    let defenseStat := getEffectiveStat defender "special-defense"
    if isCritical then
      some (max attackStat (attacker.stats.specialAttack : ℤ),
            min defenseStat (defender.stats.specialDefense : ℤ))
    else some (attackStat, defenseStat)
  else none

/-- The result tuple of `calculate_damage` together with the attacker state
(the method mutates the attacker through life-orb recoil). -/
structure DamageResult where
  damage : ℤ
  msg : EffMsg
  isCritical : Bool
  attacker : Pokemon
deriving DecidableEq, Repr

/-- `BattleEngine.calculate_damage` (source lines 334-421): stat selection,
burn halving, the base formula, the multiplier chain, life-orb recoil, the
effectiveness message, and the final `max(1, ...)` clamp. -/
def calculateDamage (f : Field) (attacker defender : Pokemon) (moveName : String)
    (o : MoveOracle) : DamageResult :=
  match attacker.moveData.lookup moveName with
  | none => ⟨0, .moveDataNotFound, false, attacker⟩
  | some md =>
    match md.power with
    | none => ⟨0, .statusMoveUsed, false, attacker⟩
    | some power =>
      let moveType := md.mtype
      let damageClass := md.damageClass
      let critChance := getCriticalHitChance attacker moveName
      let isCritical := o.critRoll < critChance
      match selectStats attacker defender damageClass isCritical with
      | none => ⟨0, .statusMoveUsed, false, attacker⟩
      | some (attackStat0, defenseStat) =>
        let attackStat :=
          if attacker.status = some "burn" ∧ damageClass = "physical" then
            Int.fdiv attackStat0 2
          else attackStat0
        let levelFactor : ℚ := 2 * (attacker.level : ℚ) / 5 + 2
        let baseDamage : ℚ :=
          levelFactor * (power : ℚ) * (attackStat : ℚ) / (defenseStat : ℚ) / 50 + 2
        let stab : ℚ := if moveType ∈ attacker.types then 3/2 else 1
        let typeEffectiveness := calculateTypeEffectiveness moveType defender.types
        let critMultiplier : ℚ := if isCritical then 3/2 else 1
        let weatherMultiplier := getWeatherMultiplier f moveType
        let terrainMultiplier := getTerrainMultiplier f moveType
        let itemMultiplier := getItemDamageMultiplier attacker damageClass typeEffectiveness
        let finalDamage : ℤ :=
          pyInt (baseDamage * stab * typeEffectiveness * critMultiplier *
            weatherMultiplier * terrainMultiplier * itemMultiplier * o.randFactor)
        let attacker :=
          if dGetS (itemData attacker) "type" = some "damage_boost" ∧ finalDamage > 0 then
            hpLoss attacker (pyInt ((attacker.maxHp : ℚ) * dGetQ (itemData attacker) "recoil" 0))
          else attacker
        let msg : EffMsg :=
          if typeEffectiveness > 1 then .superEffective
          else if typeEffectiveness < 1 ∧ typeEffectiveness > 0 then .notVeryEffective
          else if typeEffectiveness = 0 then .doesNotAffect
          else .empty
        ⟨max 1 finalDamage, msg, isCritical, attacker⟩

/-- The `status_moves` dictionary of `_apply_move_effects` (lines 544-552),
in Python insertion order. -/
def statusMovesTable : List (String × List String) :=
  [("poison", ["poison-powder", "toxic", "sludge-bomb", "poison-jab"]),
   ("badly-poisoned", ["toxic"]),
   ("burn", ["will-o-wisp", "flamethrower", "fire-blast", "lava-plume"]),
   ("paralysis", ["thunder-wave", "thunderbolt", "thunder", "body-slam"]),
   ("sleep", ["sleep-powder", "spore", "hypnosis", "lovely-kiss"]),
   ("freeze", ["ice-beam", "blizzard", "freeze-dry"]),
   ("confusion", ["confuse-ray", "supersonic", "swagger"])]

/-- One iteration of the status-infliction loop (lines 555-570): when some
listed fragment occurs in the move name and the defender has no status, roll
the effect chance and inflict. -/
def statusStep (o : MoveOracle) (nameLower : String) (effectChance : ℚ)
    (acc : Pokemon × List Event) (entry : String × List String) :
    Pokemon × List Event :=
  let (defender, msgs) := acc
  if (entry.2.any (fun m => strContains nameLower m)) ∧ defender.status = none then
    if o.statusRoll entry.1 < effectChance then
      let turns :=
        if entry.1 = "sleep" ∨ entry.1 = "freeze" ∨ entry.1 = "confusion" then
          o.statusTurnsDraw
        else if entry.1 = "badly-poisoned" then 1
        else defender.statusTurns
      ({ defender with status := some entry.1, statusTurns := turns },
       msgs ++ [Event.statusInflicted entry.1])
    else acc
  else acc

/-- The `stat_moves` nested dictionary of `_apply_move_effects`
(lines 573-581), in Python insertion order. -/
def statMovesTable : List (String × List (String × ℤ)) :=
  [("attack", [("swords-dance", 2), ("howl", 1), ("meditate", 1)]),
   ("defense", [("harden", 1), ("withdraw", 1), ("iron-defense", 2)]),
   ("special-attack", [("nasty-plot", 2), ("calm-mind", 1)]),
   ("special-defense", [("amnesia", 2), ("calm-mind", 1)]),
   ("speed", [("agility", 2), ("quick-attack", 1), ("flame-charge", 1)]),
   ("accuracy", [("hone-claws", 1)]),
   ("evasion", [("double-team", 1), ("minimize", 2)])]

/-- One iteration of the inner stat-modification loop (lines 584-598).  The
source computes `target = attacker if 'self' in effect-text else attacker`,
which is the attacker either way; the branch is kept as written. -/
def statStep (nameLower : String) (effectText : String) (stat : String)
    (acc : Pokemon × List Event) (entry : String × ℤ) : Pokemon × List Event :=
  let (attacker, msgs) := acc
  if strContains nameLower entry.1 then
    let target := if strContains effectText "self" then attacker else attacker
    let oldModifier := modsGet target.statMods stat
    let newModifier := min 6 (max (-6) (oldModifier + entry.2))
    let target := { target with statMods := modsSet target.statMods stat newModifier }
    if newModifier ≠ oldModifier then
      (target, msgs ++ [Event.statChanged stat entry.2])
    else (target, msgs)
  else acc

/-- The `weather_moves` dictionary (lines 601-604). -/
def weatherMovesTable : List (String × String) :=
  [("sunny-day", "sun"), ("rain-dance", "rain"),
   ("sandstorm", "sandstorm"), ("hail", "hail")]

/-- The `terrain_moves` dictionary (lines 618-621). -/
def terrainMovesTable : List (String × String) :=
  [("grassy-terrain", "grassy"), ("misty-terrain", "misty"),
   ("electric-terrain", "electric"), ("psychic-terrain", "psychic")]

/-- The status-infliction loop of `_apply_move_effects` (lines 555-570). -/
def statusFold (o : MoveOracle) (nameLower : String) (effectChance : ℚ)
    (acc : Pokemon × List Event) : Pokemon × List Event :=
  statusMovesTable.foldl (statusStep o nameLower effectChance) acc

/-- The nested stat-modification loops of `_apply_move_effects`
(lines 584-598). -/
def statFold (nameLower effectText : String) (acc : Pokemon × List Event) :
    Pokemon × List Event :=
  statMovesTable.foldl
    (fun acc entry => entry.2.foldl (statStep nameLower effectText entry.1) acc) acc

/-- The weather-move loop of `_apply_move_effects` (lines 606-615). -/
def weatherFold (nameLower : String) (acc : Field × List Event) : Field × List Event :=
  weatherMovesTable.foldl
    (fun acc entry =>
      if strContains nameLower entry.1 then
        (setWeather acc.1 entry.2 5, acc.2 ++ [Event.weatherStarted entry.2])
      else acc)
    acc

/-- The terrain-move loop of `_apply_move_effects` (lines 623-632). -/
def terrainFold (nameLower : String) (acc : Field × List Event) : Field × List Event :=
  terrainMovesTable.foldl
    (fun acc entry =>
      if strContains nameLower entry.1 then
        (setTerrain acc.1 entry.2 5, acc.2 ++ [Event.terrainStarted entry.2])
      else acc)
    acc

/-- `BattleEngine._apply_move_effects` (source lines 534-659): secondary
status infliction, stat-stage changes, weather and terrain setting, flinch,
crit-stage boosts, the rest self-effect, and multi-hit messages.  Returns the
updated attacker, defender, field and appended messages. -/
def applyMoveEffects (f : Field) (attacker defender : Pokemon) (moveName : String)
    (o : MoveOracle) : Pokemon × Pokemon × Field × List Event :=
  let md := (attacker.moveData.lookup moveName).getD defaultEmptyMove
  let nameLower := lowerStr moveName
  let effectChance : ℚ :=
    (match md.effectChance with
     | none => 100
     | some 0 => 100
     | some n => (n : ℚ)) / 100
  let sf := statusFold o nameLower effectChance (defender, [])
  let defender := sf.1
  let af := statFold nameLower md.effectText (attacker, sf.2)
  let attacker := af.1
  let wf := weatherFold nameLower (f, af.2)
  let tf := terrainFold nameLower (wf.1, wf.2)
  let f := tf.1
  let msgs := tf.2
  let defender :=
    if ["fake-out", "air-slash", "iron-head", "rock-slide"].any
        (fun m => strContains nameLower m) ∧ o.flinchRoll < effectChance then
      { defender with flinch := true }
    else defender
  let msgs :=
    if ["fake-out", "air-slash", "iron-head", "rock-slide"].any
        (fun m => strContains nameLower m) ∧ o.flinchRoll < effectChance then
      msgs ++ [Event.flinchedTarget]
    else msgs
  let pumped := ["focus-energy", "laser-focus"].any (fun m => strContains nameLower m)
  let attacker :=
    if pumped then { attacker with critStage := min 3 (attacker.critStage + 1) }
    else attacker
  let msgs := if pumped then msgs ++ [Event.gettingPumped] else msgs
  let attacker :=
    if strContains nameLower "rest" then
      { attacker with
          currentHp := (attacker.maxHp : ℤ)
          status := some "sleep"
          statusTurns := 2 }
    else attacker
  let msgs :=
    if strContains nameLower "rest" then msgs ++ [Event.wentToSleepAndRestored]
    else msgs
  let msgs :=
    if ["double-slap", "fury-attack", "pin-missile", "rock-blast"].any
        (fun m => strContains nameLower m) then
      let hits := ([2, 2, 3, 3, 4, 5].getD (o.multiHitIdx % 6) 2 : ℕ)
      if hits > 1 then msgs ++ [Event.hitMultipleTimes hits] else msgs
    else msgs
  (attacker, defender, f, msgs)

/-- The landed-hit tail of `use_move` (source lines 506-532): damage
computation, the survival-item clamp, damage application, and the move-effect
pass. -/
def performMoveHit (f : Field) (attacker defender : Pokemon) (moveName : String)
    (o : MoveOracle) : Pokemon × Pokemon × Field × List Event :=
  let r := calculateDamage f attacker defender moveName o
  let attacker := r.attacker
  let damage : ℤ :=
    if r.damage ≥ defender.currentHp ∧ defender.currentHp = (defender.maxHp : ℤ) then
      if dGetS (itemData defender) "type" = some "survival" then
        defender.currentHp - 1
      else if dGetS (itemData defender) "type" = some "survival_chance" ∧
          o.survivalRoll < dGetQ (itemData defender) "chance" 0 then
        defender.currentHp - 1
      else r.damage
    else r.damage
  let survivalMsgs : List Event :=
    if r.damage ≥ defender.currentHp ∧ defender.currentHp = (defender.maxHp : ℤ) then
      if dGetS (itemData defender) "type" = some "survival" then
        [Event.heldOnSurvival]
      else if dGetS (itemData defender) "type" = some "survival_chance" ∧
          o.survivalRoll < dGetQ (itemData defender) "chance" 0 then
        [Event.heldOnFocusBand]
      else []
    else []
  let defender := if damage > 0 then hpLoss defender damage else defender
  let hitMsgs : List Event :=
    if damage > 0 then
      let effMsgs :=
        match r.msg with
        | .superEffective => [Event.superEffectiveMsg]
        | .notVeryEffective => [Event.notVeryEffectiveMsg]
        | .doesNotAffect => [Event.doesNotAffectMsg]
        | _ => []
      let critMsgs := if r.isCritical then [Event.criticalHit] else []
      [Event.takesDamage damage] ++ effMsgs ++ critMsgs
    else []
  let ae := applyMoveEffects f attacker defender moveName o
  (ae.1, ae.2.1, ae.2.2.1, survivalMsgs ++ hitMsgs ++ ae.2.2.2)

/-- The action part of `use_move` once the status gates have been passed
(source lines 465-532): move-record lookup, psychic-terrain priority
blocking, the quick-claw announcement, accuracy resolution, and the landed
hit. -/
def moveAction (f : Field) (attacker defender : Pokemon) (moveName : String)
    (o : MoveOracle) : Pokemon × Pokemon × Field × List Event :=
  match attacker.moveData.lookup moveName with
  | none => (attacker, defender, f, [Event.doesNotKnowMove moveName])
  | some md =>
    let movePriority := md.priority.getD 0
    if f.terrain = some "psychic" ∧ movePriority > 0 ∧ "dark" ∉ defender.types then
      (attacker, defender, f,
       [Event.usedMove moveName, Event.blockedByPsychicTerrain])
    else
      let preMsgs : List Event :=
        if dGetS (itemData attacker) "type" = some "priority_chance" ∧
            o.quickClawRoll < dGetQ (itemData attacker) "chance" 0 then
          [Event.quickClawActivated]
        else []
      let accuracy : ℚ := ((md.accuracy.getD 100 : ℕ) : ℚ)
      let accuracyModifier :=
        modsGet attacker.statMods "accuracy" - modsGet defender.statMods "evasion"
      let finalAccuracy : ℚ :=
        if accuracyModifier ≠ 0 then
          if accuracyModifier > 0 then
            accuracy * (3 + (accuracyModifier : ℚ)) / 3
          else accuracy * 3 / (3 + |(accuracyModifier : ℚ)|)
        else accuracy
      let preMsgs := preMsgs ++ [Event.usedMove moveName]
      if (o.accuracyRoll : ℚ) > finalAccuracy then
        (attacker, defender, f, preMsgs ++ [Event.attackMissed])
      else
        let hit := performMoveHit f attacker defender moveName o
        (hit.1, hit.2.1, hit.2.2.1, preMsgs ++ hit.2.2.2)

/-- `BattleEngine.use_move` (source lines 423-532): the faint, flinch and
status gates followed by the move action. -/
def useMove (f : Field) (attacker defender : Pokemon) (moveName : String)
    (o : MoveOracle) : Pokemon × Pokemon × Field × List Event :=
  if isFainted attacker then (attacker, defender, f, [Event.faintedCannotMove])
  else if attacker.flinch then
    ({ attacker with flinch := false }, defender, f, [Event.flinchedNoMove])
  else if attacker.status = some "sleep" then (attacker, defender, f, [Event.fastAsleep])
  else if attacker.status = some "freeze" ∧ ¬ o.thawRoll < 1/5 then
    (attacker, defender, f, [Event.frozenSolid])
  else
    let preMsgs : List Event :=
      if attacker.status = some "freeze" then [Event.thawedOut] else []
    let attacker :=
      if attacker.status = some "freeze" then
        { attacker with status := none, statusTurns := 0 }
      else attacker
    if attacker.status = some "paralysis" ∧ o.paralysisRoll < 1/4 then
      (attacker, defender, f, preMsgs ++ [Event.paralyzedCannotMove])
    else if attacker.status = some "confusion" ∧ o.confusionRoll < 33/100 then
      let confusionDamage := pyInt ((attacker.maxHp : ℚ) * (1/10))
      (hpLoss attacker confusionDamage, defender, f,
       preMsgs ++ [Event.isConfused, Event.hurtItselfInConfusion confusionDamage])
    else
      let preMsgs :=
        preMsgs ++ (if attacker.status = some "confusion" then [Event.isConfused] else [])
      let act := moveAction f attacker defender moveName o
      (act.1, act.2.1, act.2.2.1, preMsgs ++ act.2.2.2)

/-- The random draws `battle_turn` makes outside the two `use_move` calls:
the two quick-claw rolls (lines 682-685), the speed-tie coin flip, and one
`MoveOracle` per executed action in execution order. -/
structure TurnOracle where
  qc1Roll : ℚ
  qc2Roll : ℚ
  coin : Bool
  oFirst : MoveOracle
  oSecond : MoveOracle

set_option linter.unusedVariables false in
/-- The turn-order decision of `battle_turn` (source lines 665-694): `true`
when `pokemon1` acts first.  The quick-claw activation rolls are computed
exactly as in the source, where the resulting booleans are never consulted
by the order condition (hence the suppressed unused-variable warnings). -/
def actsFirstP1 (p1 p2 : Pokemon) (move1 move2 : String)
    (qc1Roll qc2Roll : ℚ) (coin : Bool) : Bool :=
  let priority1 := ((p1.moveData.lookup move1).bind (fun d => d.priority)).getD 0
  let priority2 := ((p2.moveData.lookup move2).bind (fun d => d.priority)).getD 0
  let speed1 := getEffectiveStat p1 "speed"
  let speed2 := getEffectiveStat p2 "speed"
  let speed1 := if p1.status = some "paralysis" then Int.fdiv speed1 4 else speed1
  let speed2 := if p2.status = some "paralysis" then Int.fdiv speed2 4 else speed2
  let quickClaw1 : Prop :=
    dGetS (itemData p1) "type" = some "priority_chance" ∧
      qc1Roll < dGetQ (itemData p1) "chance" 0
  let quickClaw2 : Prop :=
    dGetS (itemData p2) "type" = some "priority_chance" ∧
      qc2Roll < dGetQ (itemData p2) "chance" 0
  decide (priority1 > priority2 ∨
    (priority1 = priority2 ∧ (speed1 > speed2 ∨ (speed1 = speed2 ∧ coin = true))))

/-- `BattleEngine._apply_weather_effects` (source lines 733-758). -/
def applyWeatherEffects (f : Field) (p1 p2 : Pokemon) :
    Pokemon × Pokemon × List Event :=
  match f.weather with
  | none => (p1, p2, [])
  | some w =>
    let step (p : Pokemon) : Pokemon × List Event :=
      if isFainted p then (p, [])
      else if w = "sandstorm" then
        if ¬ (p.types.any (fun t => t = "rock" ∨ t = "ground" ∨ t = "steel")) then
          (hpLoss p (max 1 (Int.fdiv (p.maxHp : ℤ) 16)), [Event.buffetedBySandstorm])
        else (p, [])
      else if w = "hail" then
        if "ice" ∉ p.types then
          (hpLoss p (max 1 (Int.fdiv (p.maxHp : ℤ) 16)), [Event.buffetedByHail])
        else (p, [])
      else (p, [])
    let r1 := step p1
    let r2 := step p2
    (r1.1, r2.1, r1.2 ++ r2.2)

/-- `BattleEngine._apply_terrain_effects` (source lines 760-779). -/
def applyTerrainEffects (f : Field) (p1 p2 : Pokemon) :
    Pokemon × Pokemon × List Event :=
  match f.terrain with
  | none => (p1, p2, [])
  | some t =>
    if t = "grassy" then
      let step (p : Pokemon) : Pokemon × List Event :=
        if isFainted p then (p, [])
        else
          let healAmount := max 1 (Int.fdiv (p.maxHp : ℤ) 16)
          if p.currentHp < (p.maxHp : ℤ) then
            (hpGainCapped p healAmount, [Event.grassyTerrainHeal])
          else (p, [])
      let r1 := step p1
      let r2 := step p2
      (r1.1, r2.1, r1.2 ++ r2.2)
    else (p1, p2, [])

/-- `BattleEngine.battle_turn` (source lines 661-731): order determination,
both actions, end-of-turn status damage, weather and terrain effects, and
the weather/terrain counter decrements. -/
def battleTurn (f : Field) (p1 p2 : Pokemon) (move1 move2 : String)
    (t : TurnOracle) : Pokemon × Pokemon × Field × List Event :=
  let p1First := actsFirstP1 p1 p2 move1 move2 t.qc1Roll t.qc2Roll t.coin
  let phase1 : Pokemon × Pokemon × Field × List Event :=
    if p1First then
      let u1 := useMove f p1 p2 move1 t.oFirst
      if ¬ isFainted u1.2.1 then
        let u2 := useMove u1.2.2.1 u1.2.1 u1.1 move2 t.oSecond
        (u2.2.1, u2.1, u2.2.2.1, u1.2.2.2 ++ u2.2.2.2)
      else (u1.1, u1.2.1, u1.2.2.1, u1.2.2.2)
    else
      let u1 := useMove f p2 p1 move2 t.oFirst
      if ¬ isFainted u1.2.1 then
        let u2 := useMove u1.2.2.1 u1.2.1 u1.1 move1 t.oSecond
        (u2.1, u2.2.1, u2.2.2.1, u1.2.2.2 ++ u2.2.2.2)
      else (u1.2.1, u1.1, u1.2.2.1, u1.2.2.2)
  let p1 := phase1.1
  let p2 := phase1.2.1
  let f := phase1.2.2.1
  let msgs := phase1.2.2.2
  let s1 := if ¬ isFainted p1 then applyStatusDamage p1 else (p1, [])
  let p1 := s1.1
  let msgs := msgs ++ s1.2
  let s2 := if ¬ isFainted p2 then applyStatusDamage p2 else (p2, [])
  let p2 := s2.1
  let msgs := msgs ++ s2.2
  let w := applyWeatherEffects f p1 p2
  let p1 := w.1
  let p2 := w.2.1
  let msgs := msgs ++ w.2.2
  let te := applyTerrainEffects f p1 p2
  let p1 := te.1
  let p2 := te.2.1
  let msgs := msgs ++ te.2.2
  let fw : Field × List Event :=
    if f.weatherTurns > 0 then
      let f2 : Field := { f with weatherTurns := f.weatherTurns - 1 }
      if f2.weatherTurns = 0 then
        ({ f2 with weather := none }, msgs ++ [Event.weatherStopped (f2.weather.getD "")])
      else (f2, msgs)
    else (f, msgs)
  let f := fw.1
  let msgs := fw.2
  let ft : Field × List Event :=
    if f.terrainTurns > 0 then
      let f2 : Field := { f with terrainTurns := f.terrainTurns - 1 }
      if f2.terrainTurns = 0 then
        ({ f2 with terrain := none }, msgs ++ [Event.terrainFaded (f2.terrain.getD "")])
      else (f2, msgs)
    else (f, msgs)
  (p1, p2, ft.1, ft.2)

/-- The HP invariant of a combatant: current HP between 0 and max HP. -/
def hpInv (p : Pokemon) : Prop := 0 ≤ p.currentHp ∧ p.currentHp ≤ (p.maxHp : ℤ)

/-! Concrete fixtures used by witnesses and counterexamples. -/

/-- A clear battlefield: no weather, no terrain. -/
def fieldClear : Field := ⟨none, 0, none, 0⟩

/-- A 100-power physical normal-type move with sure accuracy. -/
def movePhys100 : MoveData :=
  { power := some 100, accuracy := some 100, mtype := "normal",
    damageClass := "physical", priority := some 0, effectChance := none,
    critRate := none, effectText := "" }

/-- A 60-power physical normal-type move with sure accuracy. -/
def moveTackle : MoveData :=
  { power := some 60, accuracy := some 100, mtype := "normal",
    damageClass := "physical", priority := some 0, effectChance := none,
    critRate := none, effectText := "" }

/-- The air-slash record: a 75-power flying-type move that can flinch. -/
def moveAirSlash : MoveData :=
  { power := some 75, accuracy := some 100, mtype := "flying",
    damageClass := "special", priority := some 0, effectChance := some 30,
    critRate := none, effectText := "" }

/-- An oracle on which nothing random activates: every uniform roll is 1 (at
the top of its range), the accuracy roll 50 always hits a sure move, and the
damage random factor is fixed at 1. -/
def oracleBase : MoveOracle :=
  { thawRoll := 1, paralysisRoll := 1, confusionRoll := 1, quickClawRoll := 1,
    accuracyRoll := 50, critRoll := 1, randFactor := 1, survivalRoll := 1,
    statusRoll := fun _ => 1, statusTurnsDraw := 2, flinchRoll := 1,
    multiHitIdx := 0 }

/-- A level-50 attacker with effective attack 150 knowing the 100-power
physical move, as in the end-to-end damage test of the specification. -/
def atkSample : Pokemon :=
  { types := ["water"], level := 50, stats := ⟨100, 150, 100, 100, 100, 100⟩,
    maxHp := 100, currentHp := 100, status := none, statusTurns := 0,
    statMods := zeroMods, critStage := 0, flinch := false, heldItem := none,
    moveData := [("mega-punch", movePhys100)] }

/-- A level-50 defender with effective defense 100 and no STAB interaction. -/
def defSample : Pokemon :=
  { types := ["water"], level := 50, stats := ⟨100, 100, 100, 100, 100, 100⟩,
    maxHp := 100, currentHp := 100, status := none, statusTurns := 0,
    statMods := zeroMods, critStage := 0, flinch := false, heldItem := none,
    moveData := [] }

/-- A ghost-type defender, immune to the normal-type sample move. -/
def defGhost : Pokemon := { defSample with types := ["ghost"] }

/-- A fast combatant with no held item. -/
def pFast : Pokemon :=
  { types := ["normal"], level := 50, stats := ⟨200, 100, 100, 100, 100, 100⟩,
    maxHp := 200, currentHp := 200, status := none, statusTurns := 0,
    statMods := zeroMods, critStage := 0, flinch := false, heldItem := none,
    moveData := [("tackle", moveTackle)] }

/-- A slower combatant holding a quick claw. -/
def pSlowQuickClaw : Pokemon :=
  { types := ["normal"], level := 50, stats := ⟨200, 100, 100, 100, 100, 50⟩,
    maxHp := 200, currentHp := 200, status := none, statusTurns := 0,
    statMods := zeroMods, critStage := 0, flinch := false,
    heldItem := some Item.quickClaw, moveData := [("tackle", moveTackle)] }

/-- A combatant that is badly poisoned with maximum HP 11 (reachable, for
example, at level 1 from a base HP of 1), on its first poison tick. -/
def toxSmall : Pokemon :=
  { types := ["normal"], level := 5, stats := ⟨11, 10, 10, 10, 10, 10⟩,
    maxHp := 11, currentHp := 11, status := some "badly-poisoned",
    statusTurns := 1, statMods := zeroMods, critStage := 0, flinch := false,
    heldItem := none, moveData := [] }

/-- A slower combatant knowing air-slash, used to flinch a faster opponent
that has already moved. -/
def pSlowFlincher : Pokemon :=
  { types := ["normal"], level := 50, stats := ⟨200, 100, 100, 100, 100, 50⟩,
    maxHp := 200, currentHp := 200, status := none, statusTurns := 0,
    statMods := zeroMods, critStage := 0, flinch := false, heldItem := none,
    moveData := [("air-slash", moveAirSlash)] }

/-- A turn oracle on which the second mover's flinch roll activates (0 is
below the 30 percent effect chance) and nothing else random activates. -/
def oracleFlinchTurn : TurnOracle :=
  { qc1Roll := 1, qc2Roll := 1, coin := false, oFirst := oracleBase,
    oSecond := { oracleBase with flinchRoll := 0 } }

/-- The stage multiplier of section 4.2 of the specification, identical to
the inline computation at source lines 173-177. -/
def stageMultiplier (modifier : ℤ) : ℚ :=
  if modifier > 0 then (2 + (modifier : ℚ)) / 2
  else if modifier < 0 then 2 / (2 + |(modifier : ℚ)|)
  else 1

/-- The held-item multiplier `get_effective_stat` applies for a stat name:
the factor of the matching stat-boost or evolution-boost branch, and 1 when
no branch matches. -/
def itemStatMultiplier (p : Pokemon) (statName : String) : ℚ :=
  let d := itemData p
  if d ≠ [] then
    if dGetS d "type" = some "stat_boost" ∧ dGetS d "stat" = some statName then
      dGetQ d "multiplier" 1
    else if dGetS d "type" = some "evolution_boost" ∧
        (statName = "defense" ∨ statName = "special-defense") then
      dGetQ d (replaceDashUnderscore statName) 1
    else 1
  else 1

/-- Modelled from the claim's words: the effective stat computed with one
single truncation at the end — stage multiplier and item multiplier applied
in exact rational arithmetic, floored once. -/
def endTruncStat (p : Pokemon) (statName : String) : ℤ :=
  pyInt ((statsGet p.stats statName : ℚ) *
    stageMultiplier (modsGet p.statMods statName) * itemStatMultiplier p statName)

/-- The effective stat computed with a truncation after the stage multiplier
and a second truncation after the item multiplier. -/
def twoStepTrunc (p : Pokemon) (statName : String) : ℤ :=
  let afterStage : ℤ :=
    pyInt ((statsGet p.stats statName : ℚ) * stageMultiplier (modsGet p.statMods statName))
  pyInt ((afterStage : ℚ) * itemStatMultiplier p statName)

/-- A combatant with base attack 5 at attack stage +1 holding a choice band:
the configuration on which the two truncation orders disagree. -/
def pChoiceBand : Pokemon :=
  { types := ["normal"], level := 50, stats := ⟨100, 5, 100, 100, 100, 100⟩,
    maxHp := 100, currentHp := 100, status := none, statusTurns := 0,
    statMods := { zeroMods with attack := 1 }, critStage := 0, flinch := false,
    heldItem := some Item.choiceBand, moveData := [] }

/-- A badly-poisoned combatant with maximum HP 16 on its first tick. -/
def tox16 : Pokemon :=
  { types := ["normal"], level := 5, stats := ⟨16, 10, 10, 10, 10, 10⟩,
    maxHp := 16, currentHp := 16, status := some "badly-poisoned",
    statusTurns := 1, statMods := zeroMods, critStage := 0, flinch := false,
    heldItem := none, moveData := [] }

/-- The rest record: a psychic-type status move. -/
def moveRest : MoveData :=
  { power := none, accuracy := none, mtype := "psychic",
    damageClass := "status", priority := some 0, effectChance := none,
    critRate := none, effectText := "" }

/-- A burned combatant at 3 HP that knows the move rest. -/
def pBurnedRest : Pokemon :=
  { types := ["normal"], level := 50, stats := ⟨100, 100, 100, 100, 100, 100⟩,
    maxHp := 100, currentHp := 3, status := some "burn", statusTurns := 0,
    statMods := zeroMods, critStage := 0, flinch := false, heldItem := none,
    moveData := [("rest", moveRest)] }

/-- The regression attacker: attack stage -2, no item. -/
def atkMinus2 : Pokemon := { atkSample with statMods := { zeroMods with attack := -2 } }

/-- The regression defender: defense stage +2, no item. -/
def defPlus2 : Pokemon := { defSample with statMods := { zeroMods with defense := 2 } }

/-- An oracle whose critical-hit roll always succeeds. -/
def oracleCrit : MoveOracle := { oracleBase with critRoll := 0 }

/-! Theorems: helper lemmas and the claim verification results. -/

theorem ratFloor_eq_floor (q : ℚ) : ratFloor q = ⌊q⌋ := (Rat.floor_def).symm

theorem pyInt_eq (q : ℚ) : pyInt q = if q < 0 then -⌊-q⌋ else ⌊q⌋ := by
  simp [pyInt, ratFloor_eq_floor]

/-! Helper lemmas about the numeric primitives. -/

theorem pyInt_nonneg {q : ℚ} (h : 0 ≤ q) : 0 ≤ pyInt q := by
  rw [pyInt_eq, if_neg (not_lt.mpr h)]
  exact Int.floor_nonneg.mpr h

theorem pyInt_intCast (z : ℤ) : pyInt ((z : ℚ)) = z := by
  rw [pyInt_eq]
  split
  · rw [← Int.cast_neg, Int.floor_intCast]; omega
  · exact Int.floor_intCast z

theorem pyInt_natCast (n : ℕ) : pyInt ((n : ℚ)) = (n : ℤ) := by
  have := pyInt_intCast (n : ℤ)
  rwa [Int.cast_natCast] at this

/-- The recoil fraction read from any held item's dictionary is nonnegative. -/
theorem recoil_nonneg (p : Pokemon) : 0 ≤ dGetQ (itemData p) "recoil" 0 := by
  rcases hp : p.heldItem with _ | i
  · simp [itemData, hp, dGetQ, dGet]
  · cases i <;> simp only [itemData, hp] <;> decide

/-- The per-turn heal fraction read from any held item's dictionary is
nonnegative. -/
theorem healValue_nonneg (p : Pokemon) : 0 ≤ dGetQ (itemData p) "value" 0 := by
  rcases hp : p.heldItem with _ | i
  · simp [itemData, hp, dGetQ, dGet]
  · cases i <;> simp only [itemData, hp] <;> decide

/-- A fold preserves any property preserved by its step function. -/
theorem foldl_preserves {α β : Type} (P : α → Prop) {step : α → β → α}
    (hstep : ∀ a b, P a → P (step a b)) :
    ∀ (l : List β) (a : α), P a → P (l.foldl step a)
  | [], _, h => h
  | _ :: bs, a, h => foldl_preserves P hstep bs _ (hstep a _ h)

theorem hpLoss_inv {p : Pokemon} {d : ℤ} (h : hpInv p) (hd : 0 ≤ d) :
    hpInv (hpLoss p d) := by
  obtain ⟨h1, h2⟩ := h
  constructor <;> simp only [hpLoss] <;> omega

theorem hpGainCapped_inv {p : Pokemon} {amt : ℤ} (h : hpInv p) (ha : 0 ≤ amt) :
    hpInv (hpGainCapped p amt) := by
  obtain ⟨h1, h2⟩ := h
  constructor <;> simp only [hpGainCapped] <;> omega

/-- One status-infliction step never changes the defender's HP, maximum HP
or flinch flag — it writes only the status fields. -/
theorem statusStep_fields (o : MoveOracle) (nl : String) (ec : ℚ)
    (acc : Pokemon × List Event) (e : String × List String) :
    (statusStep o nl ec acc e).1.currentHp = acc.1.currentHp ∧
    (statusStep o nl ec acc e).1.maxHp = acc.1.maxHp ∧
    (statusStep o nl ec acc e).1.flinch = acc.1.flinch := by
  obtain ⟨d, m⟩ := acc
  simp only [statusStep]
  split_ifs <;> simp

/-- The whole status-infliction loop preserves the defender's HP, maximum HP
and flinch flag. -/
theorem statusFold_fields (o : MoveOracle) (nl : String) (ec : ℚ)
    (d : Pokemon) (ms : List Event) :
    (statusFold o nl ec (d, ms)).1.currentHp = d.currentHp ∧
    (statusFold o nl ec (d, ms)).1.maxHp = d.maxHp ∧
    (statusFold o nl ec (d, ms)).1.flinch = d.flinch := by
  refine foldl_preserves
    (fun pr => pr.1.currentHp = d.currentHp ∧ pr.1.maxHp = d.maxHp ∧
      pr.1.flinch = d.flinch)
    ?_ statusMovesTable (d, ms) ⟨rfl, rfl, rfl⟩
  intro a b hP
  obtain ⟨h1, h2, h3⟩ := statusStep_fields o nl ec a b
  exact ⟨h1.trans hP.1, h2.trans hP.2.1, h3.trans hP.2.2⟩

/-- One stat-modification step writes only the stage dictionary: HP, maximum
HP, status and the status counter are untouched. -/
theorem statStep_fields (nl et st : String) (acc : Pokemon × List Event)
    (e : String × ℤ) :
    (statStep nl et st acc e).1.currentHp = acc.1.currentHp ∧
    (statStep nl et st acc e).1.maxHp = acc.1.maxHp ∧
    (statStep nl et st acc e).1.status = acc.1.status ∧
    (statStep nl et st acc e).1.statusTurns = acc.1.statusTurns := by
  obtain ⟨a, m⟩ := acc
  simp only [statStep]
  split_ifs <;> simp

/-- The whole stat-modification loop preserves HP, maximum HP, status and
the status counter of the acting combatant. -/
theorem statFold_fields (nl et : String) (a : Pokemon) (ms : List Event) :
    (statFold nl et (a, ms)).1.currentHp = a.currentHp ∧
    (statFold nl et (a, ms)).1.maxHp = a.maxHp ∧
    (statFold nl et (a, ms)).1.status = a.status ∧
    (statFold nl et (a, ms)).1.statusTurns = a.statusTurns := by
  refine foldl_preserves
    (fun pr => pr.1.currentHp = a.currentHp ∧ pr.1.maxHp = a.maxHp ∧
      pr.1.status = a.status ∧ pr.1.statusTurns = a.statusTurns)
    ?_ statMovesTable (a, ms) ⟨rfl, rfl, rfl, rfl⟩
  intro acc entry hP
  refine foldl_preserves
    (fun pr => pr.1.currentHp = a.currentHp ∧ pr.1.maxHp = a.maxHp ∧
      pr.1.status = a.status ∧ pr.1.statusTurns = a.statusTurns)
    ?_ entry.2 acc hP
  intro acc2 e2 hP2
  obtain ⟨h1, h2, h3, h4⟩ := statStep_fields nl et entry.1 acc2 e2
  exact ⟨h1.trans hP2.1, h2.trans hP2.2.1, h3.trans hP2.2.2.1, h4.trans hP2.2.2.2⟩

/-- C4 counterexample: at the specification's end-to-end configuration
(100-power physical move, effective attack 150, defense 100, level 50, no
STAB, type-effectiveness 1, no critical hit, random factor 1) the damage the
engine computes is not the claimed 65. -/
theorem C4_base_damage_is_not_65 :
    (calculateDamage fieldClear atkSample defSample "mega-punch" oracleBase).damage ≠ 65 := by
  decide

/-- C4 (amended): at the same configuration the computed damage is 68, the
exact value of `(2*50/5 + 2) * 100 * 150 / 100 / 50 + 2`. -/
theorem C4_base_damage_is_68 :
    (calculateDamage fieldClear atkSample defSample "mega-punch" oracleBase).damage = 68 := by
  decide

/-- C1: against an immune defender (type-effectiveness 0) the engine reports
immunity yet still returns `max(1, int(0)) = 1` damage rather than the 0 the
claim requires, so the final clamp at source line 421 contradicts the
immunity message produced at line 419. -/
theorem C1_immune_defender_still_takes_one_damage :
    (calculateDamage fieldClear atkSample defGhost "mega-punch" oracleBase).msg =
      EffMsg.doesNotAffect ∧
    (calculateDamage fieldClear atkSample defGhost "mega-punch" oracleBase).damage = 1 ∧
    calculateTypeEffectiveness "normal" defGhost.types = 0 := by
  exact ⟨by decide, by decide, by decide⟩

/-- C2: the quick-claw activation rolls drawn at source lines 682-685 never
reach the order condition at line 688: the order decision is identical for
every pair of quick-claw rolls, and in particular a slower holder whose
quick-claw roll activates (roll 0 below the 0.2 chance) still moves second
behind a faster opponent, contradicting the claim (and the source comment)
that the item can force its holder to act first. -/
theorem C2_quick_claw_roll_never_changes_order :
    (∀ (p1 p2 : Pokemon) (m1 m2 : String) (r1 r2 r1' r2' : ℚ) (coin : Bool),
      actsFirstP1 p1 p2 m1 m2 r1 r2 coin = actsFirstP1 p1 p2 m1 m2 r1' r2' coin) ∧
    actsFirstP1 pFast pSlowQuickClaw "tackle" "tackle" 1 0 false = true := by
  constructor
  · intro p1 p2 m1 m2 r1 r2 r1' r2' coin
    rfl
  · decide

/-- C7 counterexample: with maximum HP 11, two consecutive badly-poisoned
end-of-turn ticks each deal exactly 1 damage (11 to 10 to 9), so the
per-turn status damage does not strictly increase for every badly-poisoned
combatant. -/
theorem C7_small_hp_damage_plateaus :
    (applyStatusDamage toxSmall).1.currentHp = 10 ∧
    (applyStatusDamage toxSmall).1.status = some "badly-poisoned" ∧
    (applyStatusDamage (applyStatusDamage toxSmall).1).1.currentHp = 9 := by
  exact ⟨by decide, by decide, by decide⟩

/-- C9 counterexample: when the remote fetch yields nothing, the loader
installs the generic default record — a normal-type, physical, 60-power
move — in the cache instead of leaving the record missing, so the program
does silently substitute default move numbers. -/
theorem C9_loader_substitutes_default_record :
    loadMoveEntry none = defaultMoveRecord ∧
    defaultMoveRecord.power = some 60 ∧
    defaultMoveRecord.mtype = "normal" ∧
    defaultMoveRecord.damageClass = "physical" := by
  exact ⟨rfl, rfl, rfl, rfl⟩

/-- C8: the flinch flag is not cleared at the end of every turn.  In a full
resolved turn the faster combatant acts first, is flinched by the slower
combatant's air-slash, and then reaches the end-of-turn phase with no status
and no held item, where `apply_status_damage` returns at source line 218
before the flinch reset at line 277 — so the combatant ends the turn with
its flinch flag still set (and will lose its action next turn).  The second
conjunct isolates the early return itself. -/
theorem C8_flinch_survives_end_of_turn :
    (battleTurn fieldClear pFast pSlowFlincher "tackle" "air-slash"
        oracleFlinchTurn).1.flinch = true ∧
    (applyStatusDamage { pFast with flinch := true }).1.flinch = true := by
  exact ⟨by decide, by decide⟩

/-- C5 counterexample: `get_effective_stat` truncates after each step, not
once at the end.  With base attack 5, stage +1 and a choice band the source
computes `int(int(5 * 1.5) * 1.5) = 10`, while a single final truncation
would give `int(5 * 1.5 * 1.5) = 11`. -/
theorem C5_truncation_is_stepwise_not_final :
    getEffectiveStat pChoiceBand "attack" = 10 ∧
    endTruncStat pChoiceBand "attack" = 11 ∧
    getEffectiveStat pChoiceBand "attack" ≠ endTruncStat pChoiceBand "attack" := by
  exact ⟨by decide, by decide, by decide⟩

/-- C5 (amended): for every combatant and stat name the effective-stat query
equals the stage multiplier applied and truncated, followed by the matching
held-item multiplier applied and truncated — truncation after each step. -/
theorem C5_effective_stat_truncates_each_step (p : Pokemon) (statName : String) :
    getEffectiveStat p statName = twoStepTrunc p statName := by
  simp only [getEffectiveStat, twoStepTrunc, itemStatMultiplier, stageMultiplier]
  by_cases hd : itemData p = []
  · simp [hd, pyInt_intCast]
  · by_cases hA : dGetS (itemData p) "type" = some "stat_boost" ∧
        dGetS (itemData p) "stat" = some statName
    · simp [hd, hA]
    · by_cases hB : dGetS (itemData p) "type" = some "evolution_boost" ∧
          (statName = "defense" ∨ statName = "special-defense")
      · simp [hd, hA, hB]
      · simp [hd, hA, hB, pyInt_intCast]

/-- The badly-poisoned tick damage grows strictly once the maximum HP is at
least 16, for every tick counter from 1 up. -/
theorem severePoisonDamage_strict {m : ℕ} {t : ℤ} (hm : 16 ≤ m) (ht : 1 ≤ t) :
    severePoisonDamage m t < severePoisonDamage m (t + 1) := by
  unfold severePoisonDamage
  have h16 : (0 : ℤ) ≤ 16 := by norm_num
  rw [Int.fdiv_eq_ediv _ h16, Int.fdiv_eq_ediv _ h16]
  have hm' : (16 : ℤ) ≤ (m : ℤ) := by exact_mod_cast hm
  have hA : (16 : ℤ) ≤ (m : ℤ) * t := by
    calc (16 : ℤ) ≤ (m : ℤ) := hm'
    _ = (m : ℤ) * 1 := by ring
    _ ≤ (m : ℤ) * t := by
      exact mul_le_mul_of_nonneg_left ht (by positivity)
  have hexp : (m : ℤ) * (t + 1) = (m : ℤ) * t + (m : ℤ) := by ring
  rw [hexp]
  generalize (m : ℤ) * t = A at *
  omega

/-- C7 (amended): a badly-poisoned combatant with no held item takes exactly
`max(1, (max_hp * status_turns) // 16)` at each end-of-turn tick, its counter
is incremented (not decremented) afterwards, and the tick damage strictly
increases turn-over-turn whenever `max_hp ≥ 16` (for `max_hp < 16`
consecutive ticks can deal the same clamped damage of 1). -/
theorem C7_badly_poisoned_tick (p : Pokemon)
    (hs : p.status = some "badly-poisoned") (hi : p.heldItem = none) :
    (applyStatusDamage p).1.currentHp =
      max 0 (p.currentHp - severePoisonDamage p.maxHp p.statusTurns) ∧
    (applyStatusDamage p).1.statusTurns = p.statusTurns + 1 ∧
    (∀ t : ℤ, 1 ≤ t → 16 ≤ p.maxHp →
      severePoisonDamage p.maxHp t < severePoisonDamage p.maxHp (t + 1)) := by
  refine ⟨?_, ?_, fun t ht hm => severePoisonDamage_strict hm ht⟩ <;>
    simp [applyStatusDamage, statusDamagePhase, itemEndOfTurnPhase,
      statusCountdownPhase, hs, itemData, hi, hpLoss]

/-- Witness for the amended C7 theorem at a concrete badly-poisoned
combatant. -/
theorem C7_badly_poisoned_tick_witness :
    tox16.status = some "badly-poisoned" ∧ tox16.heldItem = none ∧
    ((applyStatusDamage tox16).1.currentHp =
      max 0 (tox16.currentHp - severePoisonDamage tox16.maxHp tox16.statusTurns) ∧
    (applyStatusDamage tox16).1.statusTurns = tox16.statusTurns + 1 ∧
    (∀ t : ℤ, 1 ≤ t → 16 ≤ tox16.maxHp →
      severePoisonDamage tox16.maxHp t < severePoisonDamage tox16.maxHp (t + 1))) :=
  ⟨rfl, rfl, C7_badly_poisoned_tick tox16 rfl rfl⟩

/-- C9 (amended): when the chosen move has no record in the attacker's
move-data cache, `use_move` fails the action for the turn with a reported
event and leaves every piece of state untouched — no default numbers are
substituted at this point.  (At load time, however, a failed fetch installs
a default record; see the counterexample.) -/
theorem C9_missing_record_fails_action (f : Field) (a d : Pokemon) (m : String)
    (o : MoveOracle) (h1 : isFainted a = false) (h2 : a.flinch = false)
    (h3 : a.status = none) (h4 : a.moveData.lookup m = none) :
    useMove f a d m o = (a, d, f, [Event.doesNotKnowMove m]) := by
  simp [useMove, moveAction, h1, h2, h3, h4]

/-- Witness for the amended C9 theorem: a healthy combatant choosing a move
absent from its cache. -/
theorem C9_missing_record_fails_action_witness :
    isFainted pFast = false ∧ pFast.flinch = false ∧ pFast.status = none ∧
    pFast.moveData.lookup "bite" = none ∧
    useMove fieldClear pFast defSample "bite" oracleBase =
      (pFast, defSample, fieldClear, [Event.doesNotKnowMove "bite"]) :=
  ⟨rfl, rfl, rfl, by decide,
   C9_missing_record_fails_action fieldClear pFast defSample "bite" oracleBase
     rfl rfl rfl (by decide)⟩

/-- C10: for every attacker executing a move whose lowered name contains
"rest", the move-effect resolver unconditionally sets the attacker's current
HP to its maximum HP and its status to sleep with a 2-turn counter —
whatever status the attacker had before: the already-has-a-status gate of
the resolver guards only secondary status infliction on the defender. -/
theorem C10_rest_full_heal_and_sleep (f : Field) (a d : Pokemon) (n : String)
    (o : MoveOracle) (h : strContains (lowerStr n) "rest" = true) :
    (applyMoveEffects f a d n o).1.currentHp = (a.maxHp : ℤ) ∧
    (applyMoveEffects f a d n o).1.status = some "sleep" ∧
    (applyMoveEffects f a d n o).1.statusTurns = 2 := by
  simp only [applyMoveEffects, h]
  refine ⟨?_, ?_, ?_⟩ <;> split_ifs <;> simp [statFold_fields]

/-- Witness for C10: a burned combatant using rest is healed to full and its
burn is replaced by a 2-turn sleep. -/
theorem C10_rest_full_heal_and_sleep_witness :
    strContains (lowerStr "rest") "rest" = true ∧
    ((applyMoveEffects fieldClear pBurnedRest defSample "rest" oracleBase).1.currentHp =
      (pBurnedRest.maxHp : ℤ) ∧
    (applyMoveEffects fieldClear pBurnedRest defSample "rest" oracleBase).1.status =
      some "sleep" ∧
    (applyMoveEffects fieldClear pBurnedRest defSample "rest" oracleBase).1.statusTurns = 2) :=
  ⟨by decide,
   C10_rest_full_heal_and_sleep fieldClear pBurnedRest defSample "rest" oracleBase
     (by decide)⟩

/-- With no held item and the stage at 0, the effective stat is exactly the
calculated stat. -/
theorem effStat_stage_zero (p : Pokemon) (s : String) (hi : p.heldItem = none)
    (hm : modsGet p.statMods s = 0) :
    getEffectiveStat p s = (statsGet p.stats s : ℤ) := by
  simp [getEffectiveStat, hm, itemData, hi, pyInt_natCast]

/-- With no held item and the stage at -2, the effective stat is at most the
calculated stat. -/
theorem effStat_minus2_le (p : Pokemon) (s : String) (hi : p.heldItem = none)
    (hm : modsGet p.statMods s = -2) :
    getEffectiveStat p s ≤ (statsGet p.stats s : ℤ) := by
  simp only [getEffectiveStat, hm, itemData, hi]
  norm_num
  generalize statsGet p.stats s = n
  have hq : (0 : ℚ) ≤ (n : ℚ) * (1 / 2) := by positivity
  rw [pyInt_eq, if_neg (not_lt.mpr hq)]
  have hn : (0 : ℚ) ≤ (n : ℚ) := Nat.cast_nonneg n
  calc ⌊(n : ℚ) * (1 / 2)⌋ ≤ ⌊((n : ℚ))⌋ := Int.floor_le_floor (by linarith)
    _ = n := Int.floor_natCast n

/-- With no held item and the stage at +2, the effective stat is exactly
twice the calculated stat. -/
theorem effStat_plus2 (p : Pokemon) (s : String) (hi : p.heldItem = none)
    (hm : modsGet p.statMods s = 2) :
    getEffectiveStat p s = 2 * (statsGet p.stats s : ℤ) := by
  simp only [getEffectiveStat, hm, itemData, hi]
  norm_num
  have hc : ((statsGet p.stats s : ℚ)) * 2 = (((2 * (statsGet p.stats s : ℤ)) : ℤ) : ℚ) := by
    push_cast
    ring
  rw [hc, pyInt_intCast]

/-- C3: on a critical hit the damage formula uses
`max(effective, unmodified)` for the attacker's stat and
`min(effective, unmodified)` for the defender's stat, for both the physical
and the special class; and in the regression configuration — attacker at
attack stage -2, defender at defense stage +2, no held items — a critical
physical hit selects exactly the stage-0 stats and computes the same damage
as if both combatants were at stage 0. -/
theorem C3_critical_hit_stat_selection (a d : Pokemon) (f : Field) (mv : String)
    (o : MoveOracle) (md : MoveData)
    (hma : a.statMods = { zeroMods with attack := -2 })
    (hmd : d.statMods = { zeroMods with defense := 2 })
    (hia : a.heldItem = none) (hid : d.heldItem = none)
    (hmov : a.moveData.lookup mv = some md)
    (hcl : md.damageClass = "physical")
    (hcrit : o.critRoll < getCriticalHitChance a mv) :
    (∀ a' d' : Pokemon,
      selectStats a' d' "physical" true =
        some (max (getEffectiveStat a' "attack") (a'.stats.attack : ℤ),
              min (getEffectiveStat d' "defense") (d'.stats.defense : ℤ)) ∧
      selectStats a' d' "special" true =
        some (max (getEffectiveStat a' "special-attack") (a'.stats.specialAttack : ℤ),
              min (getEffectiveStat d' "special-defense") (d'.stats.specialDefense : ℤ))) ∧
    selectStats a d "physical" true =
      some ((a.stats.attack : ℤ), (d.stats.defense : ℤ)) ∧
    (calculateDamage f a d mv o).damage =
      (calculateDamage f { a with statMods := zeroMods }
        { d with statMods := zeroMods } mv o).damage := by
  have hga : getEffectiveStat a "attack" ≤ (a.stats.attack : ℤ) := by
    have := effStat_minus2_le a "attack" hia (by rw [hma]; rfl)
    simpa [statsGet] using this
  have hgd : getEffectiveStat d "defense" = 2 * (d.stats.defense : ℤ) := by
    have := effStat_plus2 d "defense" hid (by rw [hmd]; rfl)
    simpa [statsGet] using this
  have hsel : selectStats a d "physical" true =
      some ((a.stats.attack : ℤ), (d.stats.defense : ℤ)) := by
    simp only [selectStats, if_pos rfl, if_true]
    rw [max_eq_right hga, hgd, min_eq_right (by omega)]
  have hsel0 : selectStats { a with statMods := zeroMods }
      { d with statMods := zeroMods } "physical" true =
      some ((a.stats.attack : ℤ), (d.stats.defense : ℤ)) := by
    have h1 : getEffectiveStat { a with statMods := zeroMods } "attack" =
        (a.stats.attack : ℤ) := by
      have := effStat_stage_zero { a with statMods := zeroMods } "attack" hia rfl
      simpa [statsGet] using this
    have h2 : getEffectiveStat { d with statMods := zeroMods } "defense" =
        (d.stats.defense : ℤ) := by
      have := effStat_stage_zero { d with statMods := zeroMods } "defense" hid rfl
      simpa [statsGet] using this
    simp only [selectStats, if_pos rfl, if_true, h1, h2]
    rw [max_self, min_self]
  refine ⟨?_, hsel, ?_⟩
  · intro a' d'
    constructor <;> simp [selectStats]
  · have hcc : getCriticalHitChance { a with statMods := zeroMods } mv =
        getCriticalHitChance a mv := rfl
    have hdec : decide (o.critRoll < getCriticalHitChance a mv) = true :=
      decide_eq_true hcrit
    simp only [calculateDamage, hcc, hmov, hcl, hdec, hsel, hsel0]
    cases hP : md.power with
    | none => rfl
    | some P => rfl

/-- Witness for C3 at the concrete regression configuration. -/
theorem C3_critical_hit_stat_selection_witness :
    atkMinus2.statMods = { zeroMods with attack := -2 } ∧
    defPlus2.statMods = { zeroMods with defense := 2 } ∧
    atkMinus2.heldItem = none ∧ defPlus2.heldItem = none ∧
    atkMinus2.moveData.lookup "mega-punch" = some movePhys100 ∧
    movePhys100.damageClass = "physical" ∧
    oracleCrit.critRoll < getCriticalHitChance atkMinus2 "mega-punch" ∧
    (selectStats atkMinus2 defPlus2 "physical" true =
      some ((atkMinus2.stats.attack : ℤ), (defPlus2.stats.defense : ℤ)) ∧
    (calculateDamage fieldClear atkMinus2 defPlus2 "mega-punch" oracleCrit).damage =
      (calculateDamage fieldClear { atkMinus2 with statMods := zeroMods }
        { defPlus2 with statMods := zeroMods } "mega-punch" oracleCrit).damage) :=
  ⟨rfl, rfl, rfl, rfl, by decide, rfl, by decide,
   (C3_critical_hit_stat_selection atkMinus2 defPlus2 fieldClear "mega-punch"
     oracleCrit movePhys100 rfl rfl rfl rfl (by decide) rfl (by decide)).2⟩

theorem max_one_nonneg (x : ℤ) : (0 : ℤ) ≤ max 1 x :=
  le_trans zero_le_one (le_max_left 1 x)

theorem pyInt_value_nonneg (q : Pokemon) (n : ℕ) :
    0 ≤ pyInt ((n : ℚ) * dGetQ (itemData q) "value" 0) :=
  pyInt_nonneg (mul_nonneg (Nat.cast_nonneg n) (healValue_nonneg q))

theorem pyInt_recoil_nonneg (q : Pokemon) (n : ℕ) :
    0 ≤ pyInt ((n : ℚ) * dGetQ (itemData q) "recoil" 0) :=
  pyInt_nonneg (mul_nonneg (Nat.cast_nonneg n) (recoil_nonneg q))

theorem pyInt_tenth_nonneg (n : ℕ) : 0 ≤ pyInt ((n : ℚ) * (1 / 10)) :=
  pyInt_nonneg (by positivity)

theorem statusDamagePhase_inv {p : Pokemon} (h : hpInv p) :
    hpInv (statusDamagePhase p).1 := by
  unfold statusDamagePhase
  split_ifs <;>
    first
      | exact h
      | exact hpLoss_inv h (max_one_nonneg _)

theorem itemEndOfTurnPhase_inv {p : Pokemon} (h : hpInv p) :
    hpInv (itemEndOfTurnPhase p).1 := by
  unfold itemEndOfTurnPhase
  split_ifs <;>
    first
      | exact h
      | exact hpGainCapped_inv h (pyInt_value_nonneg p p.maxHp)
      | exact hpLoss_inv h (pyInt_value_nonneg p p.maxHp)

theorem statusCountdownPhase_inv {p : Pokemon} (h : hpInv p) :
    hpInv (statusCountdownPhase p).1 := by
  unfold statusCountdownPhase
  dsimp only
  split_ifs <;> exact h

theorem applyStatusDamage_inv {p : Pokemon} (h : hpInv p) :
    hpInv (applyStatusDamage p).1 := by
  unfold applyStatusDamage
  split_ifs with h0
  · exact h
  · rcases hsd : statusDamagePhase p with ⟨p1, m1⟩
    rcases hit : itemEndOfTurnPhase p1 with ⟨p2, m2⟩
    rcases hcd : statusCountdownPhase p2 with ⟨p3, m3⟩
    have hh1 := statusDamagePhase_inv h
    rw [hsd] at hh1
    have hh2 := itemEndOfTurnPhase_inv hh1
    rw [hit] at hh2
    have hh3 := statusCountdownPhase_inv hh2
    rw [hcd] at hh3
    dsimp only
    rw [hit]
    dsimp only
    rw [hcd]
    dsimp only
    split_ifs <;> exact hh3

theorem calculateDamage_attacker_inv (f : Field) (a d : Pokemon) (m : String)
    (o : MoveOracle) (h : hpInv a) : hpInv (calculateDamage f a d m o).attacker := by
  unfold calculateDamage
  repeat' (first | split | dsimp only)
  all_goals
    first
      | exact h
      | exact hpLoss_inv h (pyInt_recoil_nonneg _ _)

theorem statusFold_inv (o : MoveOracle) (nl : String) (ec : ℚ) {d : Pokemon}
    (ms : List Event) (h : hpInv d) : hpInv (statusFold o nl ec (d, ms)).1 := by
  obtain ⟨e1, e2, _⟩ := statusFold_fields o nl ec d ms
  exact ⟨by rw [e1]; exact h.1, by rw [e1, e2]; exact h.2⟩

theorem statFold_inv (nl et : String) {a : Pokemon} (ms : List Event)
    (h : hpInv a) : hpInv (statFold nl et (a, ms)).1 := by
  obtain ⟨e1, e2, _, _⟩ := statFold_fields nl et a ms
  exact ⟨by rw [e1]; exact h.1, by rw [e1, e2]; exact h.2⟩

theorem applyMoveEffects_inv (f : Field) (a d : Pokemon) (n : String)
    (o : MoveOracle) (ha : hpInv a) (hd : hpInv d) :
    hpInv (applyMoveEffects f a d n o).1 ∧ hpInv (applyMoveEffects f a d n o).2.1 := by
  unfold applyMoveEffects
  dsimp only
  constructor
  · split_ifs <;>
      first
        | exact ⟨by positivity, le_refl _⟩
        | exact statFold_inv _ _ _ ha
  · split_ifs <;> exact statusFold_inv _ _ _ _ hd

theorem performMoveHit_inv (f : Field) (a d : Pokemon) (m : String)
    (o : MoveOracle) (ha : hpInv a) (hd : hpInv d) :
    hpInv (performMoveHit f a d m o).1 ∧ hpInv (performMoveHit f a d m o).2.1 := by
  unfold performMoveHit
  dsimp only
  split_ifs <;>
    first
      | exact applyMoveEffects_inv _ _ _ _ _
          (calculateDamage_attacker_inv _ _ _ _ _ ha) (hpLoss_inv hd (by omega))
      | exact applyMoveEffects_inv _ _ _ _ _
          (calculateDamage_attacker_inv _ _ _ _ _ ha) hd

theorem moveAction_inv (f : Field) (a d : Pokemon) (m : String)
    (o : MoveOracle) (ha : hpInv a) (hd : hpInv d) :
    hpInv (moveAction f a d m o).1 ∧ hpInv (moveAction f a d m o).2.1 := by
  unfold moveAction
  repeat' (first | split | dsimp only)
  all_goals
    first
      | exact ⟨ha, hd⟩
      | exact performMoveHit_inv _ _ _ _ _ ha hd

theorem useMove_inv (f : Field) (a d : Pokemon) (m : String) (o : MoveOracle)
    (ha : hpInv a) (hd : hpInv d) :
    hpInv (useMove f a d m o).1 ∧ hpInv (useMove f a d m o).2.1 := by
  unfold useMove
  dsimp only
  split_ifs <;>
    first
      | exact ⟨ha, hd⟩
      | exact ⟨hpLoss_inv ha (pyInt_tenth_nonneg _), hd⟩
      | exact moveAction_inv _ _ _ _ _ ha hd

theorem applyWeatherEffects_inv (f : Field) {p1 p2 : Pokemon}
    (h1 : hpInv p1) (h2 : hpInv p2) :
    hpInv (applyWeatherEffects f p1 p2).1 ∧ hpInv (applyWeatherEffects f p1 p2).2.1 := by
  unfold applyWeatherEffects
  dsimp only
  split
  · exact ⟨h1, h2⟩
  · constructor <;>
      (split_ifs <;>
        first
          | exact h1
          | exact h2
          | exact hpLoss_inv h1 (max_one_nonneg _)
          | exact hpLoss_inv h2 (max_one_nonneg _))

theorem applyTerrainEffects_inv (f : Field) {p1 p2 : Pokemon}
    (h1 : hpInv p1) (h2 : hpInv p2) :
    hpInv (applyTerrainEffects f p1 p2).1 ∧ hpInv (applyTerrainEffects f p1 p2).2.1 := by
  unfold applyTerrainEffects
  dsimp only
  split
  · exact ⟨h1, h2⟩
  · split_ifs <;>
      refine ⟨?_, ?_⟩ <;>
        first
          | exact h1
          | exact h2
          | exact hpGainCapped_inv h1 (max_one_nonneg _)
          | exact hpGainCapped_inv h2 (max_one_nonneg _)

theorem endChain_inv (f : Field) {q1 q2 : Pokemon} (h1 : hpInv q1) (h2 : hpInv q2) :
    hpInv (applyTerrainEffects f (applyWeatherEffects f q1 q2).1
      (applyWeatherEffects f q1 q2).2.1).1 ∧
    hpInv (applyTerrainEffects f (applyWeatherEffects f q1 q2).1
      (applyWeatherEffects f q1 q2).2.1).2.1 := by
  obtain ⟨w1, w2⟩ := applyWeatherEffects_inv f h1 h2
  exact applyTerrainEffects_inv f w1 w2

set_option maxHeartbeats 2000000 in
theorem battleTurn_inv (f : Field) (p1 p2 : Pokemon) (m1 m2 : String)
    (t : TurnOracle) (h1 : hpInv p1) (h2 : hpInv p2) :
    hpInv (battleTurn f p1 p2 m1 m2 t).1 ∧ hpInv (battleTurn f p1 p2 m1 m2 t).2.1 := by
  refine ⟨?_, ?_⟩ <;> (unfold battleTurn; dsimp only) <;>
    split_ifs <;>
    (first
      | refine (endChain_inv _ ?_ ?_).1
      | refine (endChain_inv _ ?_ ?_).2) <;>
    (first | refine applyStatusDamage_inv ?_ | skip) <;>
    (first
      | exact (useMove_inv _ _ _ _ _
          (useMove_inv f p1 p2 m1 t.oFirst h1 h2).2
          (useMove_inv f p1 p2 m1 t.oFirst h1 h2).1).2
      | exact (useMove_inv _ _ _ _ _
          (useMove_inv f p1 p2 m1 t.oFirst h1 h2).2
          (useMove_inv f p1 p2 m1 t.oFirst h1 h2).1).1
      | exact (useMove_inv f p1 p2 m1 t.oFirst h1 h2).1
      | exact (useMove_inv f p1 p2 m1 t.oFirst h1 h2).2
      | exact (useMove_inv _ _ _ _ _
          (useMove_inv f p2 p1 m2 t.oFirst h2 h1).2
          (useMove_inv f p2 p1 m2 t.oFirst h2 h1).1).2
      | exact (useMove_inv _ _ _ _ _
          (useMove_inv f p2 p1 m2 t.oFirst h2 h1).2
          (useMove_inv f p2 p1 m2 t.oFirst h2 h1).1).1
      | exact (useMove_inv f p2 p1 m2 t.oFirst h2 h1).1
      | exact (useMove_inv f p2 p1 m2 t.oFirst h2 h1).2)

/-- C6: after every resolved battle turn — for every field, pair of
combatants that start the turn with their HP inside bounds, choice of moves
and random draws — each combatant's current HP lies in `[0, max_hp]`, and a
combatant is fainted exactly when its current HP is 0. -/
theorem C6_turn_preserves_hp_invariants (f : Field) (p1 p2 : Pokemon)
    (m1 m2 : String) (t : TurnOracle) (h1 : hpInv p1) (h2 : hpInv p2) :
    hpInv (battleTurn f p1 p2 m1 m2 t).1 ∧ hpInv (battleTurn f p1 p2 m1 m2 t).2.1 ∧
    (isFainted (battleTurn f p1 p2 m1 m2 t).1 = true ↔
      (battleTurn f p1 p2 m1 m2 t).1.currentHp = 0) ∧
    (isFainted (battleTurn f p1 p2 m1 m2 t).2.1 = true ↔
      (battleTurn f p1 p2 m1 m2 t).2.1.currentHp = 0) := by
  obtain ⟨A, B⟩ := battleTurn_inv f p1 p2 m1 m2 t h1 h2
  obtain ⟨A1, A2⟩ := A
  obtain ⟨B1, B2⟩ := B
  refine ⟨⟨A1, A2⟩, ⟨B1, B2⟩, ?_, ?_⟩ <;> simp only [isFainted, decide_eq_true_eq] <;>
    omega

/-- Witness for C6 at a concrete full turn. -/
theorem C6_turn_preserves_hp_invariants_witness :
    hpInv pFast ∧ hpInv pSlowFlincher ∧
    (hpInv (battleTurn fieldClear pFast pSlowFlincher "tackle" "air-slash"
        oracleFlinchTurn).1 ∧
     hpInv (battleTurn fieldClear pFast pSlowFlincher "tackle" "air-slash"
        oracleFlinchTurn).2.1 ∧
    (isFainted (battleTurn fieldClear pFast pSlowFlincher "tackle" "air-slash"
        oracleFlinchTurn).1 = true ↔
      (battleTurn fieldClear pFast pSlowFlincher "tackle" "air-slash"
        oracleFlinchTurn).1.currentHp = 0) ∧
    (isFainted (battleTurn fieldClear pFast pSlowFlincher "tackle" "air-slash"
        oracleFlinchTurn).2.1 = true ↔
      (battleTurn fieldClear pFast pSlowFlincher "tackle" "air-slash"
        oracleFlinchTurn).2.1.currentHp = 0)) :=
  ⟨⟨by decide, by decide⟩, ⟨by decide, by decide⟩,
   C6_turn_preserves_hp_invariants fieldClear pFast pSlowFlincher "tackle"
     "air-slash" oracleFlinchTurn ⟨by decide, by decide⟩ ⟨by decide, by decide⟩⟩

end PBat
